import Mathlib

/-!
Verification development for the solanastream-starter-ts repository.

The repository contains two near-duplicate variants of the same consumer:

* `ConfigA` / `ConsumerA`: the basic variant (the first half of
  `src/config.ts` together with the strict-authentication consumer in
  `src/unnamed/part_002`).
* `ConfigB` / `ConsumerB`: the JetStream variant (the second half of
  `src/config.ts` together with the fallback-chain consumer in
  `src/unnamed/part_001`).

Machine integers are modelled as `Int`; the JavaScript value `NaN`
produced by `parseInt` is modelled as `none` in `Option Int`.  An
environment variable is `Option String` (`none` = unset).  JavaScript
string truthiness (empty string is falsy) is modelled by `truthy`.
-/

/-- Truthiness of a possibly-undefined JavaScript string: `undefined`
and the empty string are falsy, every other string is truthy. -/
def truthy : Option String → Bool
  | none => false
  | some s => s != ""

/-- JavaScript `a || "d"` where `a` is a string environment variable and
`"d"` a string literal default: the default applies when `a` is unset or
empty. -/
def jsOr (o : Option String) (d : String) : String :=
  match o with
  | some s => if s != "" then s else d
  | none => d

/-- JavaScript `a || b` where both operands are possibly-undefined
strings: the right operand (as is) when the left is falsy. -/
def jsOrElse (a b : Option String) : Option String :=
  if truthy a then a else b

/-- Splitting helper for `jsSplitComma`: `acc` holds the characters of
the current field, in reverse. -/
def splitCommaAux : List Char → List Char → List String
  | [], acc => [String.mk acc.reverse]
  | c :: cs, acc =>
    if c = ',' then String.mk acc.reverse :: splitCommaAux cs []
    else splitCommaAux cs (c :: acc)

/-- JavaScript `s.split(",")`: the comma-separated fields of `s`, with
`""` producing the one-element list `[""]`. -/
def jsSplitComma (s : String) : List String :=
  splitCommaAux s.data []

/-- JavaScript `s.trim()`: strip whitespace from both ends. -/
def jsTrim (s : String) : String :=
  String.mk
    ((s.data.dropWhile Char.isWhitespace).reverse.dropWhile
      Char.isWhitespace).reverse

/-- Value of a decimal digit character, `none` otherwise. -/
def decDigit (c : Char) : Option Nat :=
  if c.isDigit then some (c.toNat - 48) else none

/-- Value of a hexadecimal digit character, `none` otherwise. -/
def hexDigit (c : Char) : Option Nat :=
  if c.isDigit then some (c.toNat - 48)
  else if 'a' ≤ c ∧ c ≤ 'f' then some (c.toNat - 87)
  else if 'A' ≤ c ∧ c ≤ 'F' then some (c.toNat - 55)
  else none

/-- Accumulate the value of the longest digit prefix of a character
list, stopping at the first non-digit. -/
def digitsVal (val : Char → Option Nat) (base : Nat) : List Char → Nat → Nat
  | [], acc => acc
  | c :: cs, acc =>
    match val c with
    | some d => digitsVal val base cs (acc * base + d)
    | none => acc

/-- JavaScript `parseInt(s)` with no radix argument: skip leading
whitespace, read an optional sign, honour a `0x`/`0X` hexadecimal
prefix, parse the longest digit prefix, and return `none` (`NaN`) when
no digit is found. -/
def jsParseInt (s : String) : Option Int :=
  let cs := s.data.dropWhile Char.isWhitespace
  let signNeg : Bool := match cs with | '-' :: _ => true | _ => false
  let cs1 := match cs with
    | '-' :: r => r
    | '+' :: r => r
    | _ => cs
  let bd : Nat × List Char :=
    match cs1 with
    | '0' :: 'x' :: r => (16, r)
    | '0' :: 'X' :: r => (16, r)
    | _ => (10, cs1)
  let val := if bd.1 == 16 then hexDigit else decDigit
  match bd.2 with
  | [] => none
  | c :: _ =>
    match val c with
    | none => none
    | some _ => some (if signNeg then -(digitsVal val bd.1 bd.2 0 : Int)
                      else (digitsVal val bd.1 bd.2 0 : Int))

namespace ConfigA

/-- Stream entry of the basic config variant (`src/config.ts`,
interface `StreamConfig` of the first half). -/
structure StreamConfig where
  name : String
  subject : String
deriving Repr, DecidableEq

/-- NATS connection settings of the basic config variant. -/
structure NATSConfig where
  serverUrl : Option String
  host : String
  port : Option Int
  name : String
  credsFile : Option String
  userJwt : Option String
  userSeed : Option String
deriving Repr, DecidableEq

/-- Settings of the basic config variant. -/
structure Settings where
  nats : NATSConfig
  streams : List StreamConfig
  logLevel : String
  statsInterval : Option Int
deriving Repr, DecidableEq

/-- Process environment read by the basic config variant. -/
structure Env where
  natsServerUrl : Option String
  natsHost : Option String
  natsPort : Option String
  natsName : Option String
  natsJwtFile : Option String
  natsCredsFile : Option String
  natsUserJwt : Option String
  natsUserSeed : Option String
  streamNames : Option String
  streamSubjects : Option String
  logLevel : Option String
  statsInterval : Option String
deriving Repr

/-- Environment with every variable unset. -/
def emptyEnv : Env :=
  { natsServerUrl := none, natsHost := none, natsPort := none
    natsName := none, natsJwtFile := none, natsCredsFile := none
    natsUserJwt := none, natsUserSeed := none, streamNames := none
    streamSubjects := none, logLevel := none, statsInterval := none }

/-- `process.env.STREAM_NAMES?.split(",") || ["basic-stream"]`: split on
commas when set (even when empty), otherwise the fallback list. -/
def namesOf (env : Option String) : List String :=
  match env with
  | some s => jsSplitComma s
  | none => ["basic-stream"]

/-- `process.env.STREAM_SUBJECTS?.split(",") || ["basic.pumpfun"]`. -/
def subjectsOf (env : Option String) : List String :=
  match env with
  | some s => jsSplitComma s
  | none => ["basic.pumpfun"]

/-- Pairwise combination `names.map((name, index) => ...)` of the two
equal-length lists, trimming each component. -/
def buildTargets : List String → List String → List StreamConfig
  | n :: ns, s :: ss => ⟨jsTrim n, jsTrim s⟩ :: buildTargets ns ss
  | _, _ => []

/-- `parseStreamConfig` of the basic config variant: throws when the
comma-separated lists have different lengths. -/
def parseStreamConfig (names subjects : Option String) :
    Except String (List StreamConfig) :=
  let ns := namesOf names
  let ss := subjectsOf subjects
  if ns.length != ss.length then
    .error "Stream configuration arrays must have the same length"
  else
    .ok (buildTargets ns ss)

/-- Construction of the exported `settings` constant of the basic config
variant; a throw inside `parseStreamConfig` aborts the whole
construction, so no partial `Settings` value is produced. -/
def settingsOf (e : Env) : Except String Settings :=
  match parseStreamConfig e.streamNames e.streamSubjects with
  | .error msg => .error msg
  | .ok streams =>
    .ok {
      nats := {
        serverUrl := e.natsServerUrl
        host := jsOr e.natsHost "localhost"
        port := jsParseInt (jsOr e.natsPort "4222")
        name := jsOr e.natsName "solana-stream-consumer"
        credsFile := jsOrElse e.natsJwtFile e.natsCredsFile
        userJwt := e.natsUserJwt
        userSeed := e.natsUserSeed
      }
      streams := streams
      logLevel := jsOr e.logLevel "info"
      statsInterval := jsParseInt (jsOr e.statsInterval "5000")
    }

end ConfigA

namespace ConfigB

/-- Stream entry of the JetStream config variant (`src/config.ts`,
interface `StreamConfig` of the second half). -/
structure StreamConfig where
  name : String
  subject : String
  stream : String
deriving Repr, DecidableEq

/-- Optional TLS material of the JetStream config variant. -/
structure TLSConfig where
  cert : Option String
  key : Option String
  ca : Option String
deriving Repr, DecidableEq

/-- NATS connection settings of the JetStream config variant. -/
structure NATSConfig where
  host : String
  port : Option Int
  name : String
  jwt : Option String
  nkey : Option String
  jwtFile : Option String
  nkeyFile : Option String
  tls : TLSConfig
deriving Repr, DecidableEq

/-- Settings of the JetStream config variant. -/
structure Settings where
  nats : NATSConfig
  streams : List StreamConfig
  logLevel : String
  statsInterval : Option Int
deriving Repr, DecidableEq

/-- Process environment read by the JetStream config variant. -/
structure Env where
  natsHost : Option String
  natsPort : Option String
  natsName : Option String
  natsJwt : Option String
  natsNkey : Option String
  natsJwtFile : Option String
  natsNkeyFile : Option String
  tlsCert : Option String
  tlsKey : Option String
  tlsCa : Option String
  streamNames : Option String
  streamSubjects : Option String
  jetstreamNames : Option String
  logLevel : Option String
  statsInterval : Option String
deriving Repr

/-- Environment with every variable unset. -/
def emptyEnv : Env :=
  { natsHost := none, natsPort := none, natsName := none
    natsJwt := none, natsNkey := none, natsJwtFile := none
    natsNkeyFile := none, tlsCert := none, tlsKey := none, tlsCa := none
    streamNames := none, streamSubjects := none, jetstreamNames := none
    logLevel := none, statsInterval := none }

/-- `loadCredentialFile`: `undefined` for a falsy path; otherwise read
and trim the file, with a read failure (modelled by the abstract file
system `fs` returning `none`) degrading to `undefined` after a logged
warning. -/
def loadCredentialFile (fs : String → Option String)
    (filePath : Option String) : Option String :=
  if truthy filePath then
    match fs (filePath.getD "") with
    | some content => some (jsTrim content)
    | none => none
  else none

/-- `process.env.STREAM_NAMES?.split(",") || ["pumpfun", "pumpswap"]`. -/
def namesOf (env : Option String) : List String :=
  match env with
  | some s => jsSplitComma s
  | none => ["pumpfun", "pumpswap"]

/-- `process.env.STREAM_SUBJECTS?.split(",") ||
["parsedtx.pumpfun", "parsedtx.pumpswap"]`. -/
def subjectsOf (env : Option String) : List String :=
  match env with
  | some s => jsSplitComma s
  | none => ["parsedtx.pumpfun", "parsedtx.pumpswap"]

/-- `process.env.JETSTREAM_NAMES?.split(",") ||
["PARSED_PUMPFUN", "PARSED_PUMPSWAP"]`. -/
def jetstreamsOf (env : Option String) : List String :=
  match env with
  | some s => jsSplitComma s
  | none => ["PARSED_PUMPFUN", "PARSED_PUMPSWAP"]

/-- Componentwise combination `names.map((name, index) => ...)` of the
three equal-length lists, trimming each component. -/
def buildTargets :
    List String → List String → List String → List StreamConfig
  | n :: ns, s :: ss, j :: js => ⟨jsTrim n, jsTrim s, jsTrim j⟩ :: buildTargets ns ss js
  | _, _, _ => []

/-- `parseStreamConfig` of the JetStream config variant: throws when
the three comma-separated lists do not all have the same length. -/
def parseStreamConfig (names subjects jetstreams : Option String) :
    Except String (List StreamConfig) :=
  let ns := namesOf names
  let ss := subjectsOf subjects
  let js := jetstreamsOf jetstreams
  if ns.length != ss.length || ns.length != js.length then
    .error "Stream configuration arrays must have the same length"
  else
    .ok (buildTargets ns ss js)

/-- Construction of the exported `settings` constant of the JetStream
config variant; `fs` models `readFileSync` for the credential files. -/
def settingsOf (fs : String → Option String) (e : Env) :
    Except String Settings :=
  match parseStreamConfig e.streamNames e.streamSubjects e.jetstreamNames with
  | .error msg => .error msg
  | .ok streams =>
    .ok {
      nats := {
        host := jsOr e.natsHost "localhost"
        port := jsParseInt (jsOr e.natsPort "4222")
        name := jsOr e.natsName "solana-stream-consumer"
        jwt := jsOrElse e.natsJwt (loadCredentialFile fs e.natsJwtFile)
        nkey := jsOrElse e.natsNkey (loadCredentialFile fs e.natsNkeyFile)
        jwtFile := e.natsJwtFile
        nkeyFile := e.natsNkeyFile
        tls := { cert := e.tlsCert, key := e.tlsKey, ca := e.tlsCa }
      }
      streams := streams
      logLevel := jsOr e.logLevel "info"
      statsInterval := jsParseInt (jsOr e.statsInterval "5000")
    }

end ConfigB

/-- Combined credentials blob synthesized from an inline JWT and an
inline NKey seed, exactly as the template literal in both consumer
variants builds it. -/
def mkCreds (jwt nkey : String) : String :=
  "-----BEGIN NATS USER JWT-----\n" ++ jwt ++
    "\n------END NATS USER JWT------\n\n-----BEGIN USER NKEY SEED-----\n" ++
    nkey ++ "\n------END USER NKEY SEED-----"

namespace ConsumerB

/-- Authentication strategy chosen by `NATSConsumer.connect` of the
JetStream variant (`src/unnamed/part_001`).  `credsFile` carries the
path handed to `readFileSync`; `anonymous` is the branch that only logs
a warning and sets no authenticator. -/
inductive AuthChoice where
  | credsFile (path : String)
  | inlineCreds (blob : String)
  | jwtOnly (jwt : String)
  | nkeyOnly (nkey : String)
  | anonymous
deriving Repr, DecidableEq

/-- Authentication-selection block of `NATSConsumer.connect`
(`src/unnamed/part_001`, lines 54 to 74): nested truthiness tests over
the destructured `jwtFile`, `jwt` and `nkey` fields. -/
def selectAuth (jwtFile jwt nkey : Option String) : AuthChoice :=
  if truthy jwtFile then
    .credsFile (jwtFile.getD "")
  else if truthy jwt && truthy nkey then
    .inlineCreds (mkCreds (jwt.getD "") (nkey.getD ""))
  else if truthy jwt then
    .jwtOnly (jwt.getD "")
  else if truthy nkey then
    .nkeyOnly (nkey.getD "")
  else
    .anonymous

/-- First predicate that holds wins; the default closes the list. -/
def firstMatch : List (Bool × AuthChoice) → AuthChoice → AuthChoice
  | [], d => d
  | (c, v) :: rest, d => if c then v else firstMatch rest d

/-- Modelled from the spec: the Authenticator Selector as the spec
words it, an explicit ordered list of (predicate, variant) pairs with
priority credentials-file > inline-jwt+key > jwt-only > key-only >
anonymous-with-warning, first match wins. -/
def specSelectAuth (jwtFile jwt nkey : Option String) : AuthChoice :=
  firstMatch
    [ (truthy jwtFile, .credsFile (jwtFile.getD ""))
    , (truthy jwt && truthy nkey,
        .inlineCreds (mkCreds (jwt.getD "") (nkey.getD "")))
    , (truthy jwt, .jwtOnly (jwt.getD ""))
    , (truthy nkey, .nkeyOnly (nkey.getD "")) ]
    .anonymous

end ConsumerB

namespace ConsumerA

/-- Authentication strategy chosen by the strict variant
(`src/unnamed/part_002`): either a credentials file or a synthesized
inline blob; anything else is a hard failure. -/
inductive StrictAuth where
  | credsFile (path : String)
  | inlineCreds (blob : String)
deriving Repr, DecidableEq

/-- Error message thrown by `NATSConsumer.connect` of the strict
variant when no authentication material is configured. -/
def authMsg : String :=
  "NATS authentication not configured. Provide NATS_CREDS_FILE/NATS_JWT_FILE or NATS_USER_JWT and NATS_USER_SEED."

/-- Authentication-selection block of `NATSConsumer.connect`
(`src/unnamed/part_002`, lines 48 to 60): credentials file first, then
inline JWT + seed, otherwise a thrown error. -/
def selectAuthStrict (credsFile userJwt userSeed : Option String) :
    Except String StrictAuth :=
  if truthy credsFile then
    .ok (.credsFile (credsFile.getD ""))
  else if truthy userJwt && truthy userSeed then
    .ok (.inlineCreds (mkCreds (userJwt.getD "") (userSeed.getD "")))
  else
    .error authMsg

/-- `NATSConsumer.connect` of the strict variant: select the
authenticator, then hand the options to the external broker `connect`
call (abstracted as `broker`).  The selection error is thrown before
the broker call, so on that path `broker` is never invoked. -/
def connectStrict {Conn : Type} (broker : StrictAuth → Except String Conn)
    (credsFile userJwt userSeed : Option String) : Except String Conn :=
  match selectAuthStrict credsFile userJwt userSeed with
  | .ok a => broker a
  | .error e => .error e

end ConsumerA

namespace Handler

/-- Mutable state touched by `NATSConsumer.handleMessage` and
`Parser.processTransaction` (identical in both variants):
`messageCount` is the consumer-level received counter, `parserCount`
the parser-level processed counter, and `sinkCalls` the trace of
console-print invocations `(streamName, decoded value)` in order.  The
decoded JSON value type is abstracted as `J`. -/
structure ConsumerState (J : Type) where
  messageCount : Nat
  parserCount : Nat
  sinkCalls : List (String × J)
deriving Repr, DecidableEq

/-- `Parser.processTransaction` (`src/parser.ts`, lines 11 to 22):
increment the parser counter, then print the message; its own
try/catch swallows any sink failure. -/
def processTransaction {J : Type} (name : String) (v : J)
    (s : ConsumerState J) : ConsumerState J :=
  { s with
    parserCount := s.parserCount + 1
    sinkCalls := s.sinkCalls ++ [(name, v)] }

/-- `NATSConsumer.handleMessage` (`src/unnamed/part_001`, lines 140 to
154, and the identical `src/unnamed/part_002`, lines 98 to 112):
increment the received counter, then try to decode + `JSON.parse` the
payload (abstracted as `parse`, `none` = a thrown decode error) and
forward to the parser; a parse failure is caught and only logged. -/
def handleMessage {J : Type} (parse : List Nat → Option J) (name : String)
    (data : List Nat) (s : ConsumerState J) : ConsumerState J :=
  let s1 := { s with messageCount := s.messageCount + 1 }
  match parse data with
  | some v => processTransaction name v s1
  | none => s1

/-- Feed a sequence of raw payloads through `handleMessage` in order. -/
def handleAll {J : Type} (parse : List Nat → Option J) (name : String)
    (msgs : List (List Nat)) (s : ConsumerState J) : ConsumerState J :=
  msgs.foldl (fun st d => handleMessage parse name d st) s

/-- `Parser.processTransaction` with the possibility of sink failure
made explicit: the sink (`console.log`) is invoked once and may throw
(`Except.error`), but the catch block inside `processTransaction`
swallows the failure, so the call always returns normally. -/
def processTransactionE {J E : Type} (sink : String → J → Except E Unit)
    (name : String) (v : J) (s : ConsumerState J) :
    Except E (ConsumerState J) :=
  let s1 := { s with
    parserCount := s.parserCount + 1
    sinkCalls := s.sinkCalls ++ [(name, v)] }
  match sink name v with
  | .ok _ => .ok s1
  | .error _ => .ok s1

/-- `NATSConsumer.handleMessage` with exceptions made explicit: the
try block runs `JSON.parse` (abstracted as `parse`, which may throw)
and then `Parser.processTransaction`; the catch block turns any thrown
error into a logged message and a normal return. -/
def handleMessageE {J E : Type} (parse : List Nat → Except E J)
    (sink : String → J → Except E Unit) (name : String) (data : List Nat)
    (s : ConsumerState J) : Except E (ConsumerState J) :=
  let s1 := { s with messageCount := s.messageCount + 1 }
  let body : Except E (ConsumerState J) :=
    match parse data with
    | .ok v => processTransactionE sink name v s1
    | .error e => .error e
  match body with
  | .ok s2 => .ok s2
  | .error _ => .ok s1

end Handler

namespace Loop

/-- Receive loop of `NATSConsumer.subscribe` in the JetStream variant
(`src/unnamed/part_001`, lines 114 to 128), one iteration per delivered
message: when `running` is false the loop breaks; otherwise the handler
runs inside a try/catch and `msg.ack()` is called on both the success
path and the catch path.  Returns the final handler state and the list
of ack decisions, one per processed message, in order. -/
def subLoopRun {S E Msg : Type} (running : Bool)
    (h : S → Msg → Except E S) : S → List Msg → S × List Bool
  | s, [] => (s, [])
  | s, m :: ms =>
    if running then
      match h s m with
      | .ok s2 =>
        let r := subLoopRun running h s2 ms
        (r.1, true :: r.2)
      | .error _ =>
        let r := subLoopRun running h s ms
        (r.1, true :: r.2)
    else (s, [])

end Loop

namespace Lifecycle

/-- Observable shutdown state of `NATSConsumer` shared by both
variants: the `running` flag, whether the stats timer handle was ever
set and whether it has been cancelled, and whether the NATS connection
handle was ever set and whether it has been closed. -/
structure State where
  running : Bool
  timerSet : Bool
  timerCancelled : Bool
  connSet : Bool
  connClosed : Bool
deriving Repr, DecidableEq

/-- `NATSConsumer.stop` (`src/unnamed/part_001`, lines 171 to 192, and
`src/unnamed/part_002`, lines 129 to 150): clear the running flag,
`clearInterval` the stats timer when its handle is set (a no-op on an
already-cancelled handle), log the parser totals, and, when the
connection handle is set, await `nc.drain()`.  The handle is never
cleared, and the nats client rejects `drain()` on an already-drained
connection, so when the modelled connection is already closed the
drain step throws out of `stop` — after the earlier state updates have
already been applied.  Returns the resulting state together with a
flag that is true exactly when the call threw. -/
def stop (s : State) : State × Bool :=
  let s1 : State :=
    { running := false
      timerSet := s.timerSet
      timerCancelled := if s.timerSet then true else s.timerCancelled
      connSet := s.connSet
      connClosed := s.connClosed }
  if s.connSet then
    if s.connClosed then (s1, true)
    else ({ s1 with connClosed := true }, false)
  else (s1, false)

end Lifecycle

/-- Settings value produced by the basic config variant from an empty
environment. -/
def defaultSettingsA : ConfigA.Settings :=
  { nats := {
      serverUrl := none
      host := "localhost"
      port := some 4222
      name := "solana-stream-consumer"
      credsFile := none
      userJwt := none
      userSeed := none }
    streams := [⟨"basic-stream", "basic.pumpfun"⟩]
    logLevel := "info"
    statsInterval := some 5000 }

/-- Settings value produced by the JetStream config variant from an
empty environment. -/
def defaultSettingsB : ConfigB.Settings :=
  { nats := {
      host := "localhost"
      port := some 4222
      name := "solana-stream-consumer"
      jwt := none
      nkey := none
      jwtFile := none
      nkeyFile := none
      tls := { cert := none, key := none, ca := none } }
    streams := [⟨"pumpfun", "parsedtx.pumpfun", "PARSED_PUMPFUN"⟩,
                ⟨"pumpswap", "parsedtx.pumpswap", "PARSED_PUMPSWAP"⟩]
    logLevel := "info"
    statsInterval := some 5000 }

section Lemmas

/-- Length of the pairwise target list when the input lists agree. -/
theorem buildTargetsA_length : ∀ ns ss : List String,
    ns.length = ss.length → (ConfigA.buildTargets ns ss).length = ns.length
  | [], [], _ => rfl
  | [], _ :: _, h => by simp at h
  | _ :: _, [], h => by simp at h
  | n :: ns, s :: ss, h => by
    simp only [ConfigA.buildTargets, List.length_cons]
    have := buildTargetsA_length ns ss (by simpa using h)
    omega

/-- Indexing into the pairwise target list. -/
theorem buildTargetsA_get? : ∀ (ns ss : List String) (i : Nat) (n s : String),
    ns[i]? = some n → ss[i]? = some s →
    (ConfigA.buildTargets ns ss)[i]? = some ⟨jsTrim n, jsTrim s⟩
  | [], _, i, _, _, hn, _ => by simp at hn
  | _ :: _, [], i, _, _, _, hs => by simp at hs
  | n :: ns, s :: ss, 0, n', s', hn, hs => by
    simp only [List.getElem?_cons_zero, Option.some_inj] at hn hs
    simp [ConfigA.buildTargets, hn, hs]
  | n :: ns, s :: ss, i + 1, n', s', hn, hs => by
    simp only [List.getElem?_cons_succ] at hn hs
    simpa [ConfigA.buildTargets] using buildTargetsA_get? ns ss i n' s' hn hs

/-- Length of the componentwise target list when the input lists
agree. -/
theorem buildTargetsB_length : ∀ ns ss js : List String,
    ns.length = ss.length → ns.length = js.length →
    (ConfigB.buildTargets ns ss js).length = ns.length
  | [], [], [], _, _ => rfl
  | [], _ :: _, _, h, _ => by simp at h
  | [], [], _ :: _, _, h => by simp at h
  | _ :: _, [], _, h, _ => by simp at h
  | _ :: _, _ :: _, [], _, h => by simp at h
  | n :: ns, s :: ss, j :: js, h1, h2 => by
    simp only [ConfigB.buildTargets, List.length_cons]
    have := buildTargetsB_length ns ss js (by simpa using h1) (by simpa using h2)
    omega

/-- Indexing into the componentwise target list. -/
theorem buildTargetsB_get? :
    ∀ (ns ss js : List String) (i : Nat) (n s j : String),
    ns[i]? = some n → ss[i]? = some s → js[i]? = some j →
    (ConfigB.buildTargets ns ss js)[i]? = some ⟨jsTrim n, jsTrim s, jsTrim j⟩
  | [], _, _, i, _, _, _, hn, _, _ => by simp at hn
  | _ :: _, [], _, i, _, _, _, _, hs, _ => by simp at hs
  | _ :: _, _ :: _, [], i, _, _, _, _, _, hj => by simp at hj
  | n :: ns, s :: ss, j :: js, 0, n', s', j', hn, hs, hj => by
    simp only [List.getElem?_cons_zero, Option.some_inj] at hn hs hj
    simp [ConfigB.buildTargets, hn, hs, hj]
  | n :: ns, s :: ss, j :: js, i + 1, n', s', j', hn, hs, hj => by
    simp only [List.getElem?_cons_succ] at hn hs hj
    simpa [ConfigB.buildTargets] using buildTargetsB_get? ns ss js i n' s' j' hn hs hj

/-- One message always bumps the received counter by one. -/
theorem handleMessage_messageCount {J : Type} (parse : List Nat → Option J)
    (name : String) (d : List Nat) (s : Handler.ConsumerState J) :
    (Handler.handleMessage parse name d s).messageCount = s.messageCount + 1 := by
  cases hp : parse d <;>
    simp [Handler.handleMessage, Handler.processTransaction, hp]

/-- One message bumps the processed counter exactly when it parses. -/
theorem handleMessage_parserCount {J : Type} (parse : List Nat → Option J)
    (name : String) (d : List Nat) (s : Handler.ConsumerState J) :
    (Handler.handleMessage parse name d s).parserCount =
      s.parserCount + (if (parse d).isSome then 1 else 0) := by
  cases hp : parse d <;>
    simp [Handler.handleMessage, Handler.processTransaction, hp]

/-- One message extends the sink trace by its decoded value, when it
parses, and leaves the trace alone otherwise. -/
theorem handleMessage_sinkCalls {J : Type} (parse : List Nat → Option J)
    (name : String) (d : List Nat) (s : Handler.ConsumerState J) :
    (Handler.handleMessage parse name d s).sinkCalls =
      s.sinkCalls ++ ((parse d).map (fun v => (name, v))).toList := by
  cases hp : parse d <;>
    simp [Handler.handleMessage, Handler.processTransaction, hp]

end Lemmas

/-- Claim C1, counterexample: with the credentials-file path absent,
the inline JWT being the empty string and the inline key `"K"`, the
selector does not synthesize the combined blob (it falls through to
key-only authentication, because JavaScript treats the empty string as
absent), so the claim does not hold for every inline JWT string. -/
theorem c1_counterexample :
    ConsumerB.selectAuth none (some "") (some "K") ≠
      ConsumerB.AuthChoice.inlineCreds
        ("-----BEGIN NATS USER JWT-----\n" ++ "" ++
          "\n------END NATS USER JWT------\n\n-----BEGIN USER NKEY SEED-----\n" ++
          "K" ++ "\n------END USER NKEY SEED-----") := by
  decide

/-- Claim C1, amended: for every nonempty inline JWT string `J` and
nonempty inline key string `K`, with the credentials-file path absent,
the Authenticator Selector synthesizes a credentials blob
byte-identical to the spec envelope
`-----BEGIN NATS USER JWT-----\nJ\n------END NATS USER JWT------\n\n-----BEGIN USER NKEY SEED-----\nK\n------END USER NKEY SEED-----`. -/
theorem c1_inline_synthesis (J K : String) (hJ : J ≠ "") (hK : K ≠ "") :
    ConsumerB.selectAuth none (some J) (some K) =
      ConsumerB.AuthChoice.inlineCreds
        ("-----BEGIN NATS USER JWT-----\n" ++ J ++
          "\n------END NATS USER JWT------\n\n-----BEGIN USER NKEY SEED-----\n" ++
          K ++ "\n------END USER NKEY SEED-----") := by
  simp [ConsumerB.selectAuth, truthy, mkCreds, bne_iff_ne, hJ, hK]

/-- Claim C1, witness: the amended synthesis evaluated at `J` and `K`. -/
theorem c1_inline_synthesis_runs :
    ConsumerB.selectAuth none (some "J") (some "K") =
      ConsumerB.AuthChoice.inlineCreds
        "-----BEGIN NATS USER JWT-----\nJ\n------END NATS USER JWT------\n\n-----BEGIN USER NKEY SEED-----\nK\n------END USER NKEY SEED-----" :=
  (c1_inline_synthesis "J" "K" (by decide) (by decide)).trans (by decide)

/-- Claim C2, confirmed: for every combination of the three
authentication fields, the selection block of the JetStream consumer
picks exactly the first matching variant of the fixed priority order
credentials-file > inline-jwt+key > jwt-only > key-only > anonymous
(the spec-side `specSelectAuth` first-match list), and it lands on the
warning-logging anonymous branch exactly when none of the three fields
is truthy. -/
theorem c2_auth_priority (f j k : Option String) :
    ConsumerB.selectAuth f j k = ConsumerB.specSelectAuth f j k ∧
    (ConsumerB.selectAuth f j k = ConsumerB.AuthChoice.anonymous ↔
      (truthy f || truthy j || truthy k) = false) := by
  cases hf : truthy f <;> cases hj : truthy j <;> cases hk : truthy k <;>
    simp [ConsumerB.selectAuth, ConsumerB.specSelectAuth,
      ConsumerB.firstMatch, hf, hj, hk]

/-- Claim C5, confirmed: with the running flag held true, the receive
loop of the JetStream consumer acknowledges every delivered message
exactly once — also when the handler raises an error, since the catch
path logs and acknowledges as well — and it never terminates early: it
emits one positive ack decision per message, in order, for every
handler. -/
theorem c5_ack_unconditional {S E Msg : Type} (h : S → Msg → Except E S)
    (s : S) (msgs : List Msg) :
    (Loop.subLoopRun true h s msgs).2 = List.replicate msgs.length true := by
  induction msgs generalizing s with
  | nil => rfl
  | cons m ms ih =>
    simp only [Loop.subLoopRun, if_true]
    cases h s m with
    | ok s2 => simpa [List.replicate_succ] using ih s2
    | error e => simpa [List.replicate_succ] using ih s

/-- Claim C6, counterexample: starting from a running consumer with a
set stats timer and an open connection, running `stop` twice makes the
second invocation throw (flag `true`): the connection handle is still
set, the connection is already drained, and the nats client rejects
`drain()` on a drained connection — so the second invocation does not
return without error. -/
theorem c6_counterexample :
    (Lifecycle.stop (Lifecycle.stop
      { running := true, timerSet := true, timerCancelled := false,
        connSet := true, connClosed := false }).1).2 = true := by
  decide

/-- Claim C6, amended: the shutdown sequence is idempotent on the
observable consumer state — a second `stop` right after a first one
yields exactly the same final state, with the running flag cleared, a
set stats timer cancelled and a set connection closed — but the second
invocation throws exactly when a connection handle is set, because the
unconditional second `nc.drain()` is rejected on the already-drained
connection; it returns without error only for a consumer that never
connected. -/
theorem c6_stop_idempotent_amended (s : Lifecycle.State) :
    (Lifecycle.stop (Lifecycle.stop s).1).1 = (Lifecycle.stop s).1 ∧
    (Lifecycle.stop s).1.running = false ∧
    (Lifecycle.stop s).1.timerCancelled = (s.timerSet || s.timerCancelled) ∧
    (Lifecycle.stop s).1.connClosed = (s.connSet || s.connClosed) ∧
    (Lifecycle.stop (Lifecycle.stop s).1).2 = s.connSet := by
  cases s with
  | mk r ts tc cs cc =>
    cases ts <;> cases cs <;> cases cc <;> simp [Lifecycle.stop]

/-- Claim C3, confirmed: feeding any sequence of raw payloads through
the message handler bumps the received counter once per payload, bumps
the processed counter exactly once per payload whose decode + JSON
parse succeeds, and invokes the sink exactly once per such payload
with its decoded value (in order); failing payloads leave the
processed counter and the sink trace untouched. -/
theorem c3_counters_and_sink {J : Type} (parse : List Nat → Option J)
    (name : String) (msgs : List (List Nat)) (s : Handler.ConsumerState J) :
    (Handler.handleAll parse name msgs s).messageCount =
      s.messageCount + msgs.length ∧
    (Handler.handleAll parse name msgs s).parserCount =
      s.parserCount + msgs.countP (fun d => (parse d).isSome) ∧
    (Handler.handleAll parse name msgs s).sinkCalls =
      s.sinkCalls ++ msgs.filterMap (fun d => (parse d).map (fun v => (name, v))) := by
  induction msgs generalizing s with
  | nil => simp [Handler.handleAll]
  | cons d ds ih =>
    obtain ⟨ih1, ih2, ih3⟩ := ih (Handler.handleMessage parse name d s)
    have hstep : Handler.handleAll parse name (d :: ds) s =
        Handler.handleAll parse name ds (Handler.handleMessage parse name d s) := by
      simp [Handler.handleAll]
    rw [hstep]
    refine ⟨?_, ?_, ?_⟩
    · rw [ih1, handleMessage_messageCount]
      simp [Nat.add_comm, Nat.add_assoc, Nat.add_left_comm]
    · rw [ih2, handleMessage_parserCount, List.countP_cons]
      cases hp : parse d <;>
        simp [hp, Nat.add_comm, Nat.add_left_comm, Nat.add_assoc]
    · rw [ih3, handleMessage_sinkCalls, List.filterMap_cons]
      cases hp : parse d <;> simp [hp]

/-- Claim C10, confirmed: with decode/parse failures and sink failures
made explicit as thrown errors, the message handler still always
returns normally — it equals `Except.ok` of the pure handler — so no
handler-originated error ever reaches the caller and the ack-on-error
branch of the receive loop is unreachable for such errors. -/
theorem c10_handler_never_throws {J E : Type} (parse : List Nat → Except E J)
    (sink : String → J → Except E Unit) (name : String) (data : List Nat)
    (s : Handler.ConsumerState J) :
    Handler.handleMessageE parse sink name data s =
      Except.ok (Handler.handleMessage (fun d => (parse d).toOption) name data s) := by
  simp only [Handler.handleMessageE, Handler.handleMessage]
  cases hp : parse data with
  | ok v =>
    simp only [Handler.processTransactionE, Handler.processTransaction,
      Except.toOption]
    cases sink name v <;> simp
  | error e => simp [Except.toOption]

/-- Claim C8, confirmed: under the strict variant, whenever the
credentials-file field is not truthy and the inline JWT + seed pair is
not both truthy, `connect` throws the not-configured authentication
error, and — since the result is the same for every broker connect
function — the external broker connect call is never invoked. -/
theorem c8_strict_auth_required {Conn : Type}
    (broker : ConsumerA.StrictAuth → Except String Conn)
    (credsFile userJwt userSeed : Option String)
    (hc : truthy credsFile = false)
    (hjk : (truthy userJwt && truthy userSeed) = false) :
    ConsumerA.selectAuthStrict credsFile userJwt userSeed =
      Except.error ConsumerA.authMsg ∧
    ConsumerA.connectStrict broker credsFile userJwt userSeed =
      Except.error ConsumerA.authMsg := by
  have h1 : ConsumerA.selectAuthStrict credsFile userJwt userSeed =
      Except.error ConsumerA.authMsg := by
    simp [ConsumerA.selectAuthStrict, hc, hjk]
  exact ⟨h1, by simp [ConsumerA.connectStrict, h1]⟩

/-- Claim C8, witness: a JWT without a seed, evaluated with a broker
that would happily connect, still fails with the configuration
error. -/
theorem c8_strict_auth_required_runs :
    ConsumerA.connectStrict (fun _ => Except.ok ()) none (some "jwt") none =
      Except.error ConsumerA.authMsg :=
  (c8_strict_auth_required (fun _ => Except.ok ()) none (some "jwt") none
    (by decide) (by decide)).2

/-- Claim C4, confirmed: in both config variants, whenever the
comma-separated stream lists disagree in length, the whole settings
construction fails with the mismatched-length error and no (partial)
Settings value is produced. -/
theorem c4_mismatched_lengths
    (eA : ConfigA.Env) (eB : ConfigB.Env) (fs : String → Option String)
    (hA : (ConfigA.namesOf eA.streamNames).length ≠
      (ConfigA.subjectsOf eA.streamSubjects).length)
    (hB : (ConfigB.namesOf eB.streamNames).length ≠
        (ConfigB.subjectsOf eB.streamSubjects).length ∨
      (ConfigB.namesOf eB.streamNames).length ≠
        (ConfigB.jetstreamsOf eB.jetstreamNames).length) :
    ConfigA.settingsOf eA =
      Except.error "Stream configuration arrays must have the same length" ∧
    ConfigB.settingsOf fs eB =
      Except.error "Stream configuration arrays must have the same length" := by
  constructor
  · have hga : ((ConfigA.namesOf eA.streamNames).length !=
        (ConfigA.subjectsOf eA.streamSubjects).length) = true := by
      simpa [bne_iff_ne] using hA
    simp [ConfigA.settingsOf, ConfigA.parseStreamConfig, hga]
  · have hgb : (((ConfigB.namesOf eB.streamNames).length !=
        (ConfigB.subjectsOf eB.streamSubjects).length) ||
        ((ConfigB.namesOf eB.streamNames).length !=
        (ConfigB.jetstreamsOf eB.jetstreamNames).length)) = true := by
      rcases hB with h | h <;> simp [bne_iff_ne, h]
    simp [ConfigB.settingsOf, ConfigB.parseStreamConfig, hgb]

/-- Claim C4, witness: two names against the one-element default
subject list (variant A) and one name against the two-element default
subject list (variant B) both abort settings construction. -/
theorem c4_mismatched_lengths_runs :
    ConfigA.settingsOf { ConfigA.emptyEnv with streamNames := some "a,b" } =
      Except.error "Stream configuration arrays must have the same length" ∧
    ConfigB.settingsOf (fun _ => none)
        { ConfigB.emptyEnv with streamNames := some "a" } =
      Except.error "Stream configuration arrays must have the same length" :=
  c4_mismatched_lengths
    { ConfigA.emptyEnv with streamNames := some "a,b" }
    { ConfigB.emptyEnv with streamNames := some "a" }
    (fun _ => none) (by decide) (Or.inl (by decide))

/-- Extraction lemma: a successful stream-list parse makes settings
construction of the basic variant succeed with exactly that list. -/
theorem settingsOfA_ok (e : ConfigA.Env) (ts : List ConfigA.StreamConfig)
    (h : ConfigA.parseStreamConfig e.streamNames e.streamSubjects = .ok ts) :
    ∃ s, ConfigA.settingsOf e = Except.ok s ∧ s.streams = ts := by
  unfold ConfigA.settingsOf
  rw [h]
  exact ⟨_, rfl, rfl⟩

/-- Extraction lemma: a successful stream-list parse makes settings
construction of the JetStream variant succeed with exactly that list. -/
theorem settingsOfB_ok (fs : String → Option String) (e : ConfigB.Env)
    (ts : List ConfigB.StreamConfig)
    (h : ConfigB.parseStreamConfig e.streamNames e.streamSubjects
      e.jetstreamNames = .ok ts) :
    ∃ s, ConfigB.settingsOf fs e = Except.ok s ∧ s.streams = ts := by
  unfold ConfigB.settingsOf
  rw [h]
  exact ⟨_, rfl, rfl⟩

/-- Claim C7, confirmed: when the stream lists of a variant all have
the same length N, settings construction succeeds and yields exactly N
stream targets, in list order, the i-th pairing the i-th trimmed name
with the i-th trimmed subject (and, in the JetStream variant, the i-th
trimmed JetStream id). -/
theorem c7_targets_in_order
    (eA : ConfigA.Env) (eB : ConfigB.Env) (fs : String → Option String)
    (hA : (ConfigA.namesOf eA.streamNames).length =
      (ConfigA.subjectsOf eA.streamSubjects).length)
    (hB1 : (ConfigB.namesOf eB.streamNames).length =
      (ConfigB.subjectsOf eB.streamSubjects).length)
    (hB2 : (ConfigB.namesOf eB.streamNames).length =
      (ConfigB.jetstreamsOf eB.jetstreamNames).length) :
    (∃ sA : ConfigA.Settings, ConfigA.settingsOf eA = Except.ok sA ∧
      sA.streams.length = (ConfigA.namesOf eA.streamNames).length ∧
      ∀ (i : Nat) (nm sb : String),
        (ConfigA.namesOf eA.streamNames)[i]? = some nm →
        (ConfigA.subjectsOf eA.streamSubjects)[i]? = some sb →
        sA.streams[i]? = some ⟨jsTrim nm, jsTrim sb⟩) ∧
    (∃ sB : ConfigB.Settings, ConfigB.settingsOf fs eB = Except.ok sB ∧
      sB.streams.length = (ConfigB.namesOf eB.streamNames).length ∧
      ∀ (i : Nat) (nm sb st : String),
        (ConfigB.namesOf eB.streamNames)[i]? = some nm →
        (ConfigB.subjectsOf eB.streamSubjects)[i]? = some sb →
        (ConfigB.jetstreamsOf eB.jetstreamNames)[i]? = some st →
        sB.streams[i]? = some ⟨jsTrim nm, jsTrim sb, jsTrim st⟩) := by
  constructor
  · have hga : ((ConfigA.namesOf eA.streamNames).length !=
        (ConfigA.subjectsOf eA.streamSubjects).length) = false := by
      simp [hA]
    have hpA : ConfigA.parseStreamConfig eA.streamNames eA.streamSubjects =
        .ok (ConfigA.buildTargets (ConfigA.namesOf eA.streamNames)
          (ConfigA.subjectsOf eA.streamSubjects)) := by
      simp [ConfigA.parseStreamConfig, hga]
    obtain ⟨sA, hsA, hstr⟩ := settingsOfA_ok eA _ hpA
    refine ⟨sA, hsA, ?_, ?_⟩
    · rw [hstr]; exact buildTargetsA_length _ _ hA
    · intro i nm sb hn hs
      rw [hstr]; exact buildTargetsA_get? _ _ i nm sb hn hs
  · have e1 : ((ConfigB.namesOf eB.streamNames).length !=
        (ConfigB.subjectsOf eB.streamSubjects).length) = false := by
      simp [hB1]
    have e2 : ((ConfigB.namesOf eB.streamNames).length !=
        (ConfigB.jetstreamsOf eB.jetstreamNames).length) = false := by
      simp [hB2]
    have hgb : (((ConfigB.namesOf eB.streamNames).length !=
        (ConfigB.subjectsOf eB.streamSubjects).length) ||
        ((ConfigB.namesOf eB.streamNames).length !=
        (ConfigB.jetstreamsOf eB.jetstreamNames).length)) = false := by
      simp [e1, e2]
    have hpB : ConfigB.parseStreamConfig eB.streamNames eB.streamSubjects
        eB.jetstreamNames =
        .ok (ConfigB.buildTargets (ConfigB.namesOf eB.streamNames)
          (ConfigB.subjectsOf eB.streamSubjects)
          (ConfigB.jetstreamsOf eB.jetstreamNames)) := by
      simp [ConfigB.parseStreamConfig, hgb]
    obtain ⟨sB, hsB, hstr⟩ := settingsOfB_ok fs eB _ hpB
    refine ⟨sB, hsB, ?_, ?_⟩
    · rw [hstr]; exact buildTargetsB_length _ _ _ hB1 hB2
    · intro i nm sb st hn hs hj
      rw [hstr]; exact buildTargetsB_get? _ _ _ i nm sb st hn hs hj

/-- Claim C7, witness: two explicit names/subjects in variant A and one
explicit (whitespace-padded) triple in variant B produce the expected
targets at the expected indices. -/
theorem c7_targets_in_order_runs :
    (∃ sA, ConfigA.settingsOf
        { ConfigA.emptyEnv with
          streamNames := some "a,b", streamSubjects := some "c,d" } =
        Except.ok sA ∧ sA.streams[1]? = some ⟨jsTrim "b", jsTrim "d"⟩) ∧
    (∃ sB, ConfigB.settingsOf (fun _ => none)
        { ConfigB.emptyEnv with
          streamNames := some " x ", streamSubjects := some "y",
          jetstreamNames := some "Z" } =
        Except.ok sB ∧
        sB.streams[0]? = some ⟨jsTrim " x ", jsTrim "y", jsTrim "Z"⟩) := by
  obtain ⟨⟨sA, hA1, hA2, hA3⟩, ⟨sB, hB1, hB2, hB3⟩⟩ :=
    c7_targets_in_order
      { ConfigA.emptyEnv with
        streamNames := some "a,b", streamSubjects := some "c,d" }
      { ConfigB.emptyEnv with
        streamNames := some " x ", streamSubjects := some "y",
        jetstreamNames := some "Z" }
      (fun _ => none) (by decide) (by decide) (by decide)
  exact ⟨⟨sA, hA1, hA3 1 "b" "d" (by decide) (by decide)⟩,
    ⟨sB, hB1, hB3 0 " x " "y" "Z" (by decide) (by decide) (by decide)⟩⟩

/-- Extraction lemma: the stats interval of any Settings value of the
basic variant is the parse of the corresponding environment value. -/
theorem settingsOfA_statsInterval (e : ConfigA.Env) (s : ConfigA.Settings)
    (h : ConfigA.settingsOf e = Except.ok s) :
    s.statsInterval = jsParseInt (jsOr e.statsInterval "5000") := by
  unfold ConfigA.settingsOf at h
  cases hp : ConfigA.parseStreamConfig e.streamNames e.streamSubjects <;>
    rw [hp] at h
  · simp at h
  · simp only [Except.ok.injEq] at h
    rw [← h]

/-- Extraction lemma: the stats interval of any Settings value of the
JetStream variant is the parse of the corresponding environment
value. -/
theorem settingsOfB_statsInterval (fs : String → Option String)
    (e : ConfigB.Env) (s : ConfigB.Settings)
    (h : ConfigB.settingsOf fs e = Except.ok s) :
    s.statsInterval = jsParseInt (jsOr e.statsInterval "5000") := by
  unfold ConfigB.settingsOf at h
  cases hp : ConfigB.parseStreamConfig e.streamNames e.streamSubjects
      e.jetstreamNames <;> rw [hp] at h
  · simp at h
  · simp only [Except.ok.injEq] at h
    rw [← h]

/-- Claim C9, counterexample: with `STATS_INTERVAL` set to `"0"` the
basic config variant happily produces a Settings value whose stats
interval is 0, so the loader does not guarantee a strictly positive
stats interval for every environment. -/
theorem c9_counterexample :
    ¬ (∀ (e : ConfigA.Env) (s : ConfigA.Settings),
        ConfigA.settingsOf e = Except.ok s →
        ∀ n : Int, s.statsInterval = some n → 0 < n) := by
  intro hcl
  have hok : ConfigA.settingsOf
      { ConfigA.emptyEnv with statsInterval := some "0" } =
      Except.ok { defaultSettingsA with statsInterval := some 0 } := by
    rfl
  have := hcl _ _ hok 0 rfl
  exact absurd this (by decide)

/-- Claim C9, amended: a Settings value carries stats interval 5000 > 0
whenever `STATS_INTERVAL` is unset or empty (the default applies); a
set non-empty value is passed through `parseInt` without any positivity
validation, so zero, negative or `NaN` intervals are possible. -/
theorem c9_stats_interval_default (eA : ConfigA.Env) (eB : ConfigB.Env)
    (fs : String → Option String)
    (sA : ConfigA.Settings) (sB : ConfigB.Settings)
    (hEA : eA.statsInterval = none ∨ eA.statsInterval = some "")
    (hEB : eB.statsInterval = none ∨ eB.statsInterval = some "")
    (hA : ConfigA.settingsOf eA = Except.ok sA)
    (hB : ConfigB.settingsOf fs eB = Except.ok sB) :
    sA.statsInterval = some 5000 ∧ sB.statsInterval = some 5000 ∧
    (0 : Int) < 5000 := by
  have h1 := settingsOfA_statsInterval eA sA hA
  have h2 := settingsOfB_statsInterval fs eB sB hB
  refine ⟨?_, ?_, by decide⟩
  · rcases hEA with h | h <;> rw [h1, h] <;> decide
  · rcases hEB with h | h <;> rw [h2, h] <;> decide

/-- Claim C9, witness: the empty environment yields the default
settings with stats interval 5000 in both variants. -/
theorem c9_stats_interval_default_runs :
    defaultSettingsA.statsInterval = some 5000 ∧
    defaultSettingsB.statsInterval = some 5000 ∧ (0 : Int) < 5000 :=
  c9_stats_interval_default ConfigA.emptyEnv ConfigB.emptyEnv
    (fun _ => none) defaultSettingsA defaultSettingsB
    (Or.inl rfl) (Or.inl rfl) (by rfl) (by rfl)
